import Mathlib

set_option maxRecDepth 10000

/-!
Shallow embedding of the NarrativeAnnotation concurrent dictionary-tagging
pipeline (`src/narrant/entitylinking/dictpreprocess.py`) and of the MeSH
tree-number classifier (`src/narrant/entity/meshontology.py`), together with
proofs of the specification claims about them.

Conventions of the embedding:
* Python `int` document ids are `Int`; sets of ids are `Finset Int`.
* The per-process mutable state of the result consumer (`docs_done`,
  the partial-tag buffer inside `metatag`, and the record of
  `bulk_insert_partial_tags` calls) is an explicit `ConsumerState` record;
  `consume_task` is a state-transition function, and a run of the consumer
  is a fold over the list of results it receives.
* The opaque tagging function `metatag.tag_doc` (external collaborator) is a
  parameter of type `TaggedDocument → Except String (List TaggedEntity)`;
  `Except.error` models a raised exception.
* Each `bulk_insert_partial_tags` call is recorded as a pair
  `(docs_done at the call, buffer contents flushed)`.
-/

namespace Narrant

/-- A tagged document (from `kgextractiontoolbox.document.document.TaggedDocument`):
only the fields the pipeline consults — the stable id and the content
predicate `has_content()`. -/
structure TaggedDocument where
  id : Int
  hasContent : Bool
deriving DecidableEq, Repr

/-- A tagged entity (`TaggedEntity`): an entity mention belonging to a
document. `document` is the owning document id (the field read as
`tags[0].document` by `consume_task`); the remaining fields carry the span
and type and are opaque to the pipeline. -/
structure TaggedEntity where
  document : Int
  start : Nat
  stop : Nat
  text : String
  ent_type : String
  ent_id : String
deriving DecidableEq, Repr

/-- Constant `BULK_INSERT_AFTER_K = 1000` (dictpreprocess.py line 28). -/
def BULK_INSERT_AFTER_K : Nat := 1000

/-- Function `wrap32`: the silent wrap-around of a 32-bit signed C int, the
storage of `multiprocessing.Value('i', 0)` — the result is the unique value
in `[-2^31, 2^31)` congruent to the argument modulo `2^32`. Incrementing the
shared `docs_done` past `2^31 - 1` wraps to `-2^31`. -/
def wrap32 (n : Int) : Int := (n + 2147483648) % 4294967296 - 2147483648

/-- The consumer-side state threaded through `consume_task` calls:
`docsDone` is the shared counter `docs_done.value` — a wrapping 32-bit
signed C int (`multiprocessing.Value('i', 0)`), so an `Int` kept in
`wrap32` range — `buffer` the tags accumulated by
`metatag.base_insert_tags_partial`, and `flushes` the record of
`metatag.bulk_insert_partial_tags` calls, each with the value of
`docs_done` at the call and the buffer contents it flushed. -/
structure ConsumerState where
  docsDone : Int
  buffer : List TaggedEntity
  flushes : List (Int × List TaggedEntity)
deriving DecidableEq, Repr

/-- The initial consumer state: `docs_done = 0`, empty buffer, no flush yet. -/
def initialConsumerState : ConsumerState := ⟨0, [], []⟩

/-- The buffering step inside `consume_task` (dictpreprocess.py lines
214-217): `if len(tags) > 0: doc_id = tags[0].document;
if doc_id in document_ids_in_db and tags: metatag.base_insert_tags_partial(tags)`.
Returns the buffer after the step. -/
def consume_append (document_ids_in_db : Finset Int) (tags : List TaggedEntity)
    (buffer : List TaggedEntity) : List TaggedEntity :=
  match tags with
  | [] => buffer
  | t0 :: _ =>
      if t0.document ∈ document_ids_in_db ∧ tags ≠ [] then buffer ++ tags
      else buffer

/-- Function `consume_task` (dictpreprocess.py lines 211-220): increments
`docs_done` (the `+= 1` of a 32-bit C int, hence through `wrap32`),
conditionally appends the result's tags to the buffer, and whenever the new
`docs_done` value satisfies `docs_done.value % K == 0` (Python floor-mod on
the possibly wrapped value, which for positive `K` agrees with `Int.emod`)
calls `bulk_insert_partial_tags` (which flushes and clears the buffer). -/
def consume_task (document_ids_in_db : Finset Int) (K : Nat)
    (tags : List TaggedEntity) (s : ConsumerState) : ConsumerState :=
  if wrap32 (s.docsDone + 1) % (K : Int) = 0 then
    ⟨wrap32 (s.docsDone + 1), [],
      s.flushes ++ [(wrap32 (s.docsDone + 1),
        consume_append document_ids_in_db tags s.buffer)]⟩
  else
    ⟨wrap32 (s.docsDone + 1), consume_append document_ids_in_db tags s.buffer,
      s.flushes⟩

/-- Function `shutdown_consumer` (dictpreprocess.py lines 222-223): one unconditional
final `bulk_insert_partial_tags` call when the consumer shuts down. -/
def shutdown_consumer (s : ConsumerState) : ConsumerState :=
  ⟨s.docsDone, [], s.flushes ++ [(s.docsDone, s.buffer)]⟩

/-- The consumer's main loop over the sequence of results it dequeues
(in arrival order), before shutdown. -/
def consumeAll (document_ids_in_db : Finset Int) (K : Nat)
    (results : List (List TaggedEntity)) (s : ConsumerState) : ConsumerState :=
  results.foldl (fun st tags => consume_task document_ids_in_db K tags st) s

/-- A complete consumer run: process every received result, then perform the
shutdown flush (the `ConsumerWorker` calls `shutdown` after observing all
closing signals). -/
def runConsumer (document_ids_in_db : Finset Int) (K : Nat)
    (results : List (List TaggedEntity)) (s : ConsumerState) : ConsumerState :=
  shutdown_consumer (consumeAll document_ids_in_db K results s)

/-- Function `do_task` (dictpreprocess.py lines 195-205): invoke the tagging function;
on success return the document's tags, on any exception log and return the
empty list. -/
def do_task (tagFn : TaggedDocument → Except String (List TaggedEntity))
    (in_doc : TaggedDocument) : List TaggedEntity :=
  match tagFn in_doc with
  | Except.ok tags => tags
  | Except.error _ => []

/-- One worker of the pool: dequeues its share of tasks and emits exactly one
result per task (`Worker` applies `do_task` to every task it dequeues). -/
def workerRun (tagFn : TaggedDocument → Except String (List TaggedEntity))
    (tasks : List TaggedDocument) : List (List TaggedEntity) :=
  tasks.map (do_task tagFn)

/-- The tags persisted by a consumer run: the concatenation of everything the
`bulk_insert_partial_tags` calls flushed to storage. -/
def persistedTags (s : ConsumerState) : List TaggedEntity :=
  (s.flushes.map Prod.snd).flatten

/-- All tags a consumer state holds, buffered or already flushed; used to
trace the provenance of persisted tags. -/
def allTags (s : ConsumerState) : List TaggedEntity :=
  s.buffer ++ (s.flushes.map Prod.snd).flatten

/-- Function `get_untagged_doc_ids_by_tagger` (external collaborator from
`kgextractiontoolbox.entitylinking.biomedical_entity_linking`, the spec's
resumability filter): from the candidate id set, keep the ids not already
tagged by this tagger and version. `alreadyTagged` is the set of ids the
storage records as tagged by `PharmDictTagger` at its current version. -/
def get_untagged_doc_ids_by_tagger (candidate_ids : Finset Int)
    (alreadyTagged : Finset Int) : Finset Int :=
  candidate_ids \ alreadyTagged

/-- Function `find_untagged_ids` (dictpreprocess.py lines 31-40): when the input file
is missing return the empty set, otherwise the file's document ids filtered
through `get_untagged_doc_ids_by_tagger`. Note that the force-reprocess flag
is not a parameter: this path always filters. -/
def find_untagged_ids (in_file_exists : Bool) (in_ids : Finset Int)
    (alreadyTagged : Finset Int) : Finset Int :=
  if in_file_exists then get_untagged_doc_ids_by_tagger in_ids alreadyTagged
  else ∅

/-- The work-set computation of `main` (dictpreprocess.py lines 129-163):
with an input file, `document_ids = find_untagged_ids(...)` (lines 129-132);
without one, `document_ids` starts as all ids of the collection and is
replaced by the untagged subset unless `--force-tag-all` is set
(lines 144-162). -/
def computeWorkSet (input_given : Bool) (force_tag_all : Bool)
    (in_file_exists : Bool) (in_ids : Finset Int)
    (document_ids_in_db : Finset Int) (alreadyTagged : Finset Int) : Finset Int :=
  if input_given then
    find_untagged_ids in_file_exists in_ids alreadyTagged
  else
    if force_tag_all then document_ids_in_db
    else get_untagged_doc_ids_by_tagger document_ids_in_db alreadyTagged

/-- One row of the `DocTaggedBy` table as built by `add_doc_tagged_by_infos`
(dictpreprocess.py lines 56-63). The `date_inserted=datetime.now()` field is
omitted: no claim depends on the wall clock. -/
structure DocTaggedByRow where
  document_id : Int
  document_collection : String
  tagger_name : String
  tagger_version : String
  ent_type : String
deriving DecidableEq, Repr

/-- Function `add_doc_tagged_by_infos` (dictpreprocess.py lines 43-68): build one
`DocTaggedBy` row per id of `document_ids`, with the entity-type signature
`'|'.join(sorted(ent_types))`, and bulk-insert them. Returns the inserted
rows. Python iterates the set in an unspecified order; the embedding fixes
ascending id order (each id visited exactly once either way). -/
def add_doc_tagged_by_infos (document_ids : Finset Int) (collection : String)
    (ent_types : List String) (tagger_name tagger_version : String) :
    List DocTaggedByRow :=
  let ent_type_str := String.intercalate "|" (ent_types.mergeSort (fun a b => a ≤ b))
  (document_ids.sort (fun a b => a ≤ b)).map (fun doc_id =>
    ⟨doc_id, collection, tagger_name, tagger_version, ent_type_str⟩)

/-- The filter of `generate_tasks` (dictpreprocess.py lines 180-193): a
document from the source is enqueued iff its id is in the work set and it
has content. -/
def generate_tasks (document_ids : Finset Int)
    (docs : List TaggedDocument) : List TaggedDocument :=
  docs.filter (fun d => decide (d.id ∈ document_ids) && d.hasContent)

/-- The observable outcome of one invocation of `main` (after argument
parsing and work-set computation): the final progress counter, the record of
bulk flushes, the `DocTaggedBy` rows written, whether the tagger was
initialized (`PharmDictTagger(...).prepare()`, lines 172-175), whether the
scratch working directory was removed (`shutil.rmtree(root_dir)`), and
whether the process exited successfully. -/
structure RunOutcome where
  docsDone : Int
  flushes : List (Int × List TaggedEntity)
  runRecords : List DocTaggedByRow
  taggerInitialized : Bool
  scratchReleased : Bool
  success : Bool
deriving Repr

/-- The body of `main` from the empty-work-set check on (dictpreprocess.py
lines 165-247), for an already-computed work set `document_ids`:
if `number_of_docs == 0` exit(0) at once — before tagger initialization,
without any flush, any `DocTaggedBy` row, or the temp-directory removal of
lines 243-245. Otherwise run the pipeline, write one `DocTaggedBy` row per
id in `document_ids ∩ document_ids_in_db` (line 240), and remove the scratch
directory only when no `--workdir` was given. `workdir_given` is whether
`args.workdir` was set (otherwise `root_dir` is a fresh temp directory). -/
def mainRun (workdir_given : Bool) (document_ids document_ids_in_db : Finset Int)
    (docs : List TaggedDocument)
    (tagFn : TaggedDocument → Except String (List TaggedEntity))
    (collection : String) (ent_types : List String)
    (tagger_name tagger_version : String) : RunOutcome :=
  let number_of_docs := document_ids.card
  if number_of_docs = 0 then
    { docsDone := 0, flushes := [], runRecords := [],
      taggerInitialized := false, scratchReleased := false, success := true }
  else
    let workset := generate_tasks document_ids docs
    let results := workerRun tagFn workset
    let final := runConsumer document_ids_in_db BULK_INSERT_AFTER_K results
      initialConsumerState
    let records := add_doc_tagged_by_infos (document_ids ∩ document_ids_in_db)
      collection ent_types tagger_name tagger_version
    { docsDone := final.docsDone, flushes := final.flushes,
      runRecords := records, taggerInitialized := true,
      scratchReleased := !workdir_given, success := true }

/-- Modelled from the spec: the entity-type constants imported by
`meshontology.py` from `narrant.entitylinking.enttypes` (a module of this
repository not present under src/). The spec treats entity types as opaque
distinct labels, so they are embedded as a finite inductive type. -/
inductive EntityType where
  | vaccine
  | dosageForm
  | method
  | labMethod
  | disease
  | healthStatus
  | tissue
deriving DecidableEq, Repr

/-- Constant `VACCINE` from `narrant.entitylinking.enttypes`. -/
def VACCINE : EntityType := EntityType.vaccine

/-- Constant `DOSAGE_FORM` from `narrant.entitylinking.enttypes`. -/
def DOSAGE_FORM : EntityType := EntityType.dosageForm

/-- Constant `METHOD` from `narrant.entitylinking.enttypes`. -/
def METHOD : EntityType := EntityType.method

/-- Constant `LAB_METHOD` from `narrant.entitylinking.enttypes`. -/
def LAB_METHOD : EntityType := EntityType.labMethod

/-- Constant `DISEASE` from `narrant.entitylinking.enttypes`. -/
def DISEASE : EntityType := EntityType.disease

/-- Constant `HEALTH_STATUS` from `narrant.entitylinking.enttypes`. -/
def HEALTH_STATUS : EntityType := EntityType.healthStatus

/-- Constant `TISSUE` from `narrant.entitylinking.enttypes`. -/
def TISSUE : EntityType := EntityType.tissue

/-- Table `MESH_TREE_TO_ENTITY_TYPE` (meshontology.py lines 31-47): the fixed
prefix table mapping MeSH tree-number prefixes to entity types, in source
order. -/
def MESH_TREE_TO_ENTITY_TYPE : List (String × EntityType) :=
  [("D20.215.894", VACCINE),
   ("D26.255", DOSAGE_FORM),
   ("E02.319.300", DOSAGE_FORM),
   ("E02.319.267", DOSAGE_FORM),
   ("J01.637.512.600", DOSAGE_FORM),
   ("J01.637.512.850", DOSAGE_FORM),
   ("J01.637.512.925", DOSAGE_FORM),
   ("E", METHOD),
   ("E", LAB_METHOD),
   ("E", DOSAGE_FORM),
   ("C", DISEASE),
   ("F03", DISEASE),
   ("F02", DISEASE),
   ("M01", HEALTH_STATUS),
   ("A10", TISSUE)]

/-- Python's `str.startswith`: `s.startswith(p)` holds iff `p`'s character
sequence is a prefix of `s`'s (strings are embedded as their character
lists). -/
def startswith (s p : String) : Bool := p.data.isPrefixOf s.data

/-- Method `MeSHOntology.tree_number_to_entity_type` (meshontology.py lines
170-185): collect, in table order, the entity type of every table entry
whose tree-number prefix starts the input; return them if any, otherwise
raise `KeyError` (embedded as `Except.error`). -/
def tree_number_to_entity_type (tree_number : String) :
    Except String (List EntityType) :=
  let hits := MESH_TREE_TO_ENTITY_TYPE.foldl
    (fun acc p => if startswith tree_number p.1 then acc ++ [p.2] else acc) []
  if hits.isEmpty then
    Except.error ("No entity type for tree number " ++ tree_number ++ " found")
  else
    Except.ok hits

/-! ### Consumer-loop lemmas -/

theorem wrap32_wrap32 (n : Int) : wrap32 (wrap32 n) = wrap32 n := by
  unfold wrap32
  omega

theorem wrap32_add_left (a b : Int) : wrap32 (wrap32 a + b) = wrap32 (a + b) := by
  unfold wrap32
  omega

theorem wrap32_eq_self (n : Int) (h1 : -2147483648 ≤ n) (h2 : n < 2147483648) :
    wrap32 n = n := by
  unfold wrap32
  omega

theorem wrap32_zero : wrap32 0 = 0 := by decide

theorem consume_task_docsDone (db : Finset Int) (K : Nat)
    (tags : List TaggedEntity) (s : ConsumerState) :
    (consume_task db K tags s).docsDone = wrap32 (s.docsDone + 1) := by
  unfold consume_task
  split <;> simp

theorem consumeAll_docsDone (db : Finset Int) (K : Nat)
    (results : List (List TaggedEntity)) :
    ∀ s : ConsumerState, wrap32 s.docsDone = s.docsDone →
      (consumeAll db K results s).docsDone
        = wrap32 (s.docsDone + results.length) := by
  induction results with
  | nil =>
      intro s hs
      simp only [consumeAll, List.foldl_nil, List.length_nil, Nat.cast_zero,
        add_zero]
      exact hs.symm
  | cons r rs ih =>
      intro s hs
      show (consumeAll db K rs (consume_task db K r s)).docsDone = _
      rw [ih (consume_task db K r s)
          (by rw [consume_task_docsDone, wrap32_wrap32]),
        consume_task_docsDone, wrap32_add_left]
      congr 1
      push_cast [List.length_cons]
      ring

theorem runConsumer_docsDone (db : Finset Int) (K : Nat)
    (results : List (List TaggedEntity)) (s : ConsumerState)
    (hs : wrap32 s.docsDone = s.docsDone) :
    (runConsumer db K results s).docsDone
      = wrap32 (s.docsDone + results.length) := by
  unfold runConsumer shutdown_consumer
  simp [consumeAll_docsDone db K results s hs]

theorem consume_task_flushes (db : Finset Int) (K : Nat)
    (tags : List TaggedEntity) (s : ConsumerState) :
    (consume_task db K tags s).flushes =
      s.flushes ++
        (if wrap32 (s.docsDone + 1) % (K : Int) = 0 then
          [(wrap32 (s.docsDone + 1), consume_append db tags s.buffer)]
        else []) := by
  unfold consume_task
  split <;> simp_all

theorem consumeAll_flush_positions (db : Finset Int) (K : Nat)
    (results : List (List TaggedEntity)) :
    ∀ s : ConsumerState, wrap32 s.docsDone = s.docsDone →
      (consumeAll db K results s).flushes.map Prod.fst =
        s.flushes.map Prod.fst ++
          ((List.range results.length).map
            (fun i : Nat => wrap32 (s.docsDone + (i : Int) + 1))).filter
              (fun m => m % (K : Int) = 0) := by
  induction results with
  | nil => intro s hs; simp [consumeAll]
  | cons r rs ih =>
      intro s hs
      have hcomp : (fun i : Nat => wrap32 (wrap32 (s.docsDone + 1) + i + 1))
          = ((fun i : Nat => wrap32 (s.docsDone + i + 1)) ∘ Nat.succ) :=
        funext fun i => by
          simp only [Function.comp_apply, Nat.succ_eq_add_one]
          rw [add_assoc (wrap32 (s.docsDone + 1)) (i : Int) 1, wrap32_add_left]
          congr 1
          push_cast
          ring
      show (consumeAll db K rs (consume_task db K r s)).flushes.map Prod.fst = _
      rw [ih (consume_task db K r s)
          (by rw [consume_task_docsDone, wrap32_wrap32]),
        consume_task_flushes, consume_task_docsDone, hcomp,
        show (r :: rs).length = rs.length + 1 from rfl,
        List.range_succ_eq_map]
      simp only [List.map_cons, List.map_map, List.filter_cons, Nat.cast_zero,
        add_zero, List.map_append]
      by_cases h : wrap32 (s.docsDone + 1) % (K : Int) = 0 <;> simp [h]

theorem runConsumer_flush_positions (db : Finset Int) (K : Nat)
    (results : List (List TaggedEntity)) (s : ConsumerState)
    (hs : wrap32 s.docsDone = s.docsDone) :
    (runConsumer db K results s).flushes.map Prod.fst =
      s.flushes.map Prod.fst ++
        ((List.range results.length).map
          (fun i : Nat => wrap32 (s.docsDone + (i : Int) + 1))).filter
            (fun m => m % (K : Int) = 0) ++
        [wrap32 (s.docsDone + results.length)] := by
  unfold runConsumer shutdown_consumer
  simp [consumeAll_flush_positions db K results s hs,
    consumeAll_docsDone db K results s hs]

theorem consume_append_mem (db : Finset Int) (tags buffer : List TaggedEntity)
    (t : TaggedEntity) (h : t ∈ consume_append db tags buffer) :
    t ∈ buffer ∨ t ∈ tags := by
  cases tags with
  | nil => exact Or.inl h
  | cons t0 rest =>
      simp only [consume_append] at h
      split at h
      · rcases List.mem_append.mp h with h1 | h2
        · exact Or.inl h1
        · exact Or.inr h2
      · exact Or.inl h

theorem consume_task_allTags (db : Finset Int) (K : Nat)
    (tags : List TaggedEntity) (s : ConsumerState) (t : TaggedEntity)
    (h : t ∈ allTags (consume_task db K tags s)) :
    t ∈ allTags s ∨ t ∈ tags := by
  have hsplit : t ∈ consume_append db tags s.buffer ∨
      t ∈ (s.flushes.map Prod.snd).flatten := by
    unfold consume_task at h
    split at h <;> unfold allTags at h <;>
      simp only [List.map_append, List.flatten_append, List.map_cons,
        List.map_nil, List.flatten_cons, List.flatten_nil, List.append_nil,
        List.nil_append, List.mem_append] at h
    · tauto
    · tauto
  rcases hsplit with h1 | h2
  · rcases consume_append_mem db tags s.buffer t h1 with hb | ht
    · exact Or.inl (List.mem_append.mpr (Or.inl hb))
    · exact Or.inr ht
  · exact Or.inl (List.mem_append.mpr (Or.inr h2))

theorem consumeAll_allTags (db : Finset Int) (K : Nat)
    (results : List (List TaggedEntity)) :
    ∀ (s : ConsumerState) (t : TaggedEntity),
      t ∈ allTags (consumeAll db K results s) →
      t ∈ allTags s ∨ ∃ r ∈ results, t ∈ r := by
  induction results with
  | nil => intro s t h; exact Or.inl h
  | cons r rs ih =>
      intro s t h
      rcases ih (consume_task db K r s) t h with h1 | ⟨r', hr', ht⟩
      · rcases consume_task_allTags db K r s t h1 with h2 | h2
        · exact Or.inl h2
        · exact Or.inr ⟨r, List.mem_cons_self r rs, h2⟩
      · exact Or.inr ⟨r', List.mem_cons_of_mem r hr', ht⟩

theorem rowFilter_count (collection : String) (ets tn tv : String) (idv : Int)
    (l : List Int) (hl : l.Nodup) :
    ((l.map (fun doc_id =>
        (⟨doc_id, collection, tn, tv, ets⟩ : DocTaggedByRow))).filter
      (fun row => row.document_id = idv)).length
      = if idv ∈ l then 1 else 0 := by
  induction l with
  | nil => simp
  | cons a l ih =>
      rcases List.nodup_cons.mp hl with ⟨ha, hl'⟩
      by_cases h : a = idv
      · subst h
        simp only [List.map_cons, List.filter_cons, List.mem_cons,
          decide_eq_true_eq]
        simp [ih hl', ha]
      · simp only [List.map_cons, List.filter_cons, decide_eq_true_eq]
        simp only [h, if_false]
        rw [ih hl']
        simp [List.mem_cons, h, Ne.symm h]

theorem hits_foldl_eq_filter_map (tn : String) (l : List (String × EntityType)) :
    ∀ acc : List EntityType,
      l.foldl (fun acc p => if startswith tn p.1 then acc ++ [p.2] else acc) acc
        = acc ++ (l.filter (fun p => startswith tn p.1)).map Prod.snd := by
  induction l with
  | nil => intro acc; simp
  | cons p ps ih =>
      intro acc
      by_cases h : startswith tn p.1 = true <;>
        simp [List.filter_cons, h, ih, List.foldl_cons]

theorem persistedTags_runConsumer (db : Finset Int) (K : Nat)
    (results : List (List TaggedEntity)) (s : ConsumerState) (t : TaggedEntity)
    (h : t ∈ persistedTags (runConsumer db K results s)) :
    t ∈ allTags s ∨ ∃ r ∈ results, t ∈ r := by
  apply consumeAll_allTags db K results s t
  unfold runConsumer shutdown_consumer persistedTags at h
  simp only [List.map_append, List.flatten_append, List.mem_append,
    List.map_cons, List.map_nil, List.flatten_cons, List.flatten_nil,
    List.append_nil] at h
  unfold allTags
  rcases h with h | h
  · exact List.mem_append.mpr (Or.inr h)
  · exact List.mem_append.mpr (Or.inl h)

/-! ### Claim theorems -/

/-- C1 counterexample: the claim that the Progress Counter equals exactly n
for every work set of size n fails on the code. `docs_done` is a 32-bit
signed C int (`multiprocessing.Value('i', 0)`): a work set of 2^31
documents — one worker, results in submission order, an instance of the
claim's quantification — wraps the counter, whose final value is
-2^31, not 2^31. -/
theorem claim_C1_counterexample :
    (List.replicate 2147483648 (⟨1, true⟩ : TaggedDocument)).length
      = 2147483648 ∧
    (runConsumer ∅ BULK_INSERT_AFTER_K
        (workerRun (fun _ => Except.ok [])
          (List.replicate 2147483648 ⟨1, true⟩))
        initialConsumerState).docsDone
      ≠ ((List.replicate 2147483648
          (⟨1, true⟩ : TaggedDocument)).length : Int) := by
  constructor
  · exact List.length_replicate 2147483648 _
  · rw [runConsumer_docsDone _ _ _ _ (by decide)]
    simp only [workerRun, List.length_map, List.length_replicate]
    decide

/-- C1 as amended: after a completed run — any work set, any worker count
N ≥ 1, any completion order of the one-Result-per-task outputs — the
Progress Counter equals the 32-bit signed wrap of the work-set size n
(one `+= 1` of the shared C int per completed Result, applied by the
consumer alone); in particular it equals exactly n whenever n < 2^31. -/
theorem claim_C1_progress_counter_wrapped
    (db : Finset Int) (K N : Nat)
    (tagFn : TaggedDocument → Except String (List TaggedEntity))
    (workset : List TaggedDocument)
    (loads : List (List TaggedDocument)) (results : List (List TaggedEntity))
    (hN : 1 ≤ N) (hloads : loads.length = N)
    (hpart : loads.flatten.Perm workset)
    (hres : results.Perm ((loads.map (workerRun tagFn)).flatten)) :
    (runConsumer db K results initialConsumerState).docsDone
      = wrap32 (workset.length) ∧
    (workset.length < 2147483648 →
      (runConsumer db K results initialConsumerState).docsDone
        = (workset.length : Int)) := by
  have h2 : (loads.map (workerRun tagFn)).flatten
      = loads.flatten.map (do_task tagFn) := by
    rw [List.map_flatten]
    rfl
  have h1 : results.length = workset.length := by
    rw [hres.length_eq, h2, List.length_map, hpart.length_eq]
  have hmain : (runConsumer db K results initialConsumerState).docsDone
      = wrap32 (workset.length) := by
    rw [runConsumer_docsDone db K results initialConsumerState (by decide), h1]
    norm_num [initialConsumerState]
  refine ⟨hmain, fun hb => ?_⟩
  rw [hmain]
  exact wrap32_eq_self _ (by omega) (by omega)

/-- Witness for the amended C1 at a concrete pipeline: two workers, three
documents, results arriving out of submission order. -/
theorem claim_C1_progress_counter_wrapped_witness :
    (runConsumer {1, 3} 2
      [[⟨3, 0, 1, "c", "Drug", "D3"⟩], [], [⟨1, 0, 1, "a", "Drug", "D1"⟩]]
      initialConsumerState).docsDone = (3 : Int) :=
  (claim_C1_progress_counter_wrapped {1, 3} 2 2
    (fun doc => if doc.id = 2 then Except.error "boom"
      else Except.ok [⟨doc.id, 0, 1, (if doc.id = 1 then "a" else "c"),
        "Drug", (if doc.id = 1 then "D1" else "D3")⟩])
    [⟨1, true⟩, ⟨2, true⟩, ⟨3, true⟩]
    [[⟨1, true⟩, ⟨2, true⟩], [⟨3, true⟩]]
    [[⟨3, 0, 1, "c", "Drug", "D3"⟩], [], [⟨1, 0, 1, "a", "Drug", "D1"⟩]]
    (by decide) (by decide) (by decide) (by decide)).2 (by decide)

/-- C4: a scheduled flush happens exactly when the (wrapping 32-bit)
counter becomes a multiple of K — the flush positions of any run are the
counter values `wrap32 (i + 1)` divisible by K — plus one more
unconditional flush at shutdown; in particular any run of 2500 completed
documents with non-empty Results under K = 1000 performs exactly 3
bulk-insert calls, at counter values 1000, 2000 and (final flush) 2500. -/
theorem claim_C4_flush_cadence
    (db : Finset Int) (results : List (List TaggedEntity))
    (hlen : results.length = 2500) (hne : ∀ r ∈ results, r ≠ []) :
    (∀ (results2 : List (List TaggedEntity)) (K : Nat),
      (runConsumer db K results2 initialConsumerState).flushes.map Prod.fst =
        ((List.range results2.length).map
          (fun i : Nat => wrap32 ((i : Int) + 1))).filter
            (fun m => m % (K : Int) = 0) ++ [wrap32 (results2.length)]) ∧
    (runConsumer db BULK_INSERT_AFTER_K results
        initialConsumerState).flushes.map Prod.fst = [1000, 2000, 2500] ∧
    (runConsumer db BULK_INSERT_AFTER_K results
        initialConsumerState).flushes.length = 3 := by
  have hgen : ∀ (results2 : List (List TaggedEntity)) (K : Nat),
      (runConsumer db K results2 initialConsumerState).flushes.map Prod.fst =
        ((List.range results2.length).map
          (fun i : Nat => wrap32 ((i : Int) + 1))).filter
            (fun m => m % (K : Int) = 0) ++ [wrap32 (results2.length)] := by
    intro results2 K
    rw [runConsumer_flush_positions _ _ _ _ (by decide)]
    simp [initialConsumerState]
  have hpos : (runConsumer db BULK_INSERT_AFTER_K results
      initialConsumerState).flushes.map Prod.fst = [1000, 2000, 2500] := by
    rw [hgen, hlen]
    decide
  refine ⟨hgen, hpos, ?_⟩
  have := congrArg List.length hpos
  simpa using this

/-- Witness for C4: 2500 identical non-empty results. -/
theorem claim_C4_flush_cadence_witness :
    (runConsumer ∅ BULK_INSERT_AFTER_K
        (List.replicate 2500 [⟨1, 0, 1, "a", "Drug", "D1"⟩])
        initialConsumerState).flushes.map Prod.fst = [1000, 2000, 2500] :=
  (claim_C4_flush_cadence ∅ (List.replicate 2500 [⟨1, 0, 1, "a", "Drug", "D1"⟩])
    (List.length_replicate 2500 _)
    (fun r hr => by rw [List.eq_of_mem_replicate hr]; exact List.cons_ne_nil _ _)).2.1

/-- C5: every Result processed by `consume_task` increments the Progress
Counter — the `+= 1` of the shared 32-bit C int, i.e. to
`wrap32 (docsDone + 1)`, which is exactly `docsDone + 1` whenever the
increment does not overflow; its Tags are appended to the insert buffer iff
the Result is non-empty and its document id (read from the first Tag) is
among the ids known to exist in storage. -/
theorem claim_C5_buffer_iff_nonempty_and_known
    (db : Finset Int) (K : Nat) (tags : List TaggedEntity) (s : ConsumerState) :
    (consume_task db K tags s).docsDone = wrap32 (s.docsDone + 1) ∧
    (-2147483648 ≤ s.docsDone → s.docsDone + 1 < 2147483648 →
      (consume_task db K tags s).docsDone = s.docsDone + 1) ∧
    (tags = [] → consume_append db tags s.buffer = s.buffer) ∧
    (∀ t0 rest, tags = t0 :: rest →
      consume_append db tags s.buffer =
        if t0.document ∈ db then s.buffer ++ tags else s.buffer) := by
  refine ⟨consume_task_docsDone db K tags s, ?_, ?_, ?_⟩
  · intro hlo hhi
    rw [consume_task_docsDone db K tags s]
    exact wrap32_eq_self _ (by omega) hhi
  · intro h; subst h; rfl
  · intro t0 rest h
    subst h
    by_cases hm : t0.document ∈ db <;> simp [consume_append, hm]

/-- Witness for C5 on a non-empty Result whose document is in storage, from
the non-overflowing initial state. -/
theorem claim_C5_buffer_iff_nonempty_and_known_witness :
    (consume_task {7} 1000 [⟨7, 0, 1, "a", "Drug", "D1"⟩]
        initialConsumerState).docsDone = initialConsumerState.docsDone + 1 ∧
    consume_append {7} [⟨7, 0, 1, "a", "Drug", "D1"⟩]
        initialConsumerState.buffer =
      if (7 : Int) ∈ ({7} : Finset Int) then
        initialConsumerState.buffer ++ [⟨7, 0, 1, "a", "Drug", "D1"⟩]
      else initialConsumerState.buffer :=
  ⟨(claim_C5_buffer_iff_nonempty_and_known {7} 1000
      [⟨7, 0, 1, "a", "Drug", "D1"⟩] initialConsumerState).2.1
      (by decide) (by decide),
    (claim_C5_buffer_iff_nonempty_and_known {7} 1000
      [⟨7, 0, 1, "a", "Drug", "D1"⟩] initialConsumerState).2.2.2
      ⟨7, 0, 1, "a", "Drug", "D1"⟩ [] rfl⟩

/-- C9: the buffering decision of `consume_task` is gated solely on the
first Tag's document id: the whole Result is buffered iff `tags[0].document`
is a stored id, and when it is, every Tag of the Result is buffered with no
per-Tag id check (tags of other documents included). -/
theorem claim_C9_gating_on_first_tag_only
    (db : Finset Int) (t0 : TaggedEntity) (rest buffer : List TaggedEntity) :
    (consume_append db (t0 :: rest) buffer =
      if t0.document ∈ db then buffer ++ t0 :: rest else buffer) ∧
    (t0.document ∈ db → ∀ t ∈ rest, t ∈ consume_append db (t0 :: rest) buffer) := by
  constructor
  · by_cases hm : t0.document ∈ db <;> simp [consume_append, hm]
  · intro hm t ht
    simp [consume_append, hm, List.mem_append, ht]

/-- Witness for C9: the second tag belongs to a document absent from
storage, yet it is buffered because the first tag's document is present. -/
theorem claim_C9_gating_on_first_tag_only_witness :
    ⟨9, 2, 3, "b", "Disease", "D9"⟩ ∈
      consume_append {5} [⟨5, 0, 1, "a", "Drug", "D5"⟩,
        ⟨9, 2, 3, "b", "Disease", "D9"⟩] [] :=
  (claim_C9_gating_on_first_tag_only {5} ⟨5, 0, 1, "a", "Drug", "D5"⟩
      [⟨9, 2, 3, "b", "Disease", "D9"⟩] []).2 (by decide)
    ⟨9, 2, 3, "b", "Disease", "D9"⟩ (by decide)

/-- C2: a document whose tagging raises gets the empty Result from
`do_task` (the worker loop is not stopped: every task still yields exactly
one Result, so the final counter is the 32-bit wrap of the work-set size,
exactly the size whenever it is below 2^31), consuming the empty Result
leaves the buffer unchanged yet applies the counter's `+= 1` (the wrapping
increment of the 32-bit C int), and no Tag of that document is ever
persisted. The tagger contract `htagger` says a successful tagging of a
document emits only Tags of that document. -/
theorem claim_C2_failure_isolated
    (db : Finset Int) (K : Nat)
    (tagFn : TaggedDocument → Except String (List TaggedEntity))
    (workset : List TaggedDocument) (d : TaggedDocument)
    (hd : d ∈ workset)
    (herr : ∃ msg, tagFn d = Except.error msg)
    (htagger : ∀ doc tags, tagFn doc = Except.ok tags →
      ∀ t ∈ tags, t.document = doc.id)
    (hids : (workset.map TaggedDocument.id).Nodup) :
    do_task tagFn d = [] ∧
    (∀ s : ConsumerState,
      (consume_task db K (do_task tagFn d) s).docsDone
        = wrap32 (s.docsDone + 1) ∧
      consume_append db (do_task tagFn d) s.buffer = s.buffer) ∧
    (∀ t ∈ persistedTags (runConsumer db K (workerRun tagFn workset)
        initialConsumerState), t.document ≠ d.id) ∧
    (runConsumer db K (workerRun tagFn workset)
        initialConsumerState).docsDone = wrap32 (workset.length) ∧
    (workset.length < 2147483648 →
      (runConsumer db K (workerRun tagFn workset)
        initialConsumerState).docsDone = (workset.length : Int)) := by
  obtain ⟨msg, hmsg⟩ := herr
  have hdo : do_task tagFn d = [] := by simp [do_task, hmsg]
  have hfinal : (runConsumer db K (workerRun tagFn workset)
      initialConsumerState).docsDone = wrap32 (workset.length) := by
    rw [runConsumer_docsDone db K _ initialConsumerState (by decide)]
    simp [workerRun, initialConsumerState]
  refine ⟨hdo, ?_, ?_, hfinal, fun hb => ?_⟩
  · intro s
    refine ⟨consume_task_docsDone db K _ s, ?_⟩
    rw [hdo]
    rfl
  swap
  · rw [hfinal]
    exact wrap32_eq_self _ (by omega) (by omega)
  · intro t ht
    rcases persistedTags_runConsumer db K _ initialConsumerState t ht with h0 | ⟨r, hr, htr⟩
    · simp [allTags, initialConsumerState] at h0
    · rcases List.mem_map.mp hr with ⟨d', hd', hdo'⟩
      subst hdo'
      intro hcontra
      unfold do_task at htr
      cases htag' : tagFn d' with
      | error e => rw [htag'] at htr; simp at htr
      | ok tags =>
          rw [htag'] at htr
          have hdoc' : t.document = d'.id := htagger d' tags htag' t htr
          have : d' = d := by
            apply List.inj_on_of_nodup_map hids hd' hd
            rw [← hdoc', hcontra]
          subst this
          rw [hmsg] at htag'
          exact Except.noConfusion htag'

/-- Witness for C2: three documents, the tagging of document 2 raises. -/
theorem claim_C2_failure_isolated_witness :
    do_task (fun doc => if doc.id = 2 then Except.error "boom"
      else Except.ok [⟨doc.id, 0, 1, "a", "Drug", "D1"⟩]) ⟨2, true⟩ = [] ∧
    (runConsumer {1, 2, 3} 2
      (workerRun (fun doc => if doc.id = 2 then Except.error "boom"
        else Except.ok [⟨doc.id, 0, 1, "a", "Drug", "D1"⟩])
        [⟨1, true⟩, ⟨2, true⟩, ⟨3, true⟩])
      initialConsumerState).docsDone = (3 : Int) := by
  have h := claim_C2_failure_isolated {1, 2, 3} 2
    (fun doc => if doc.id = 2 then Except.error "boom"
      else Except.ok [⟨doc.id, 0, 1, "a", "Drug", "D1"⟩])
    [⟨1, true⟩, ⟨2, true⟩, ⟨3, true⟩] ⟨2, true⟩
    (by decide) ⟨"boom", rfl⟩
    (fun doc tags htag t ht => by
      by_cases hid : doc.id = 2
      · simp [hid] at htag
      · simp [hid] at htag
        subst htag
        rcases List.mem_singleton.mp ht with rfl
        rfl)
    (by decide)
  exact ⟨h.1, h.2.2.2.2 (by decide)⟩

/-- C3: after the aggregator completes, exactly one `DocTaggedBy` row is
written per id in (work set ∩ ids present in storage) and for no other id,
and the written rows do not depend on the tagging function (so a document
whose tagging failed is still recorded). -/
theorem claim_C3_runrecords_intersection
    (workdir_given : Bool) (document_ids db : Finset Int)
    (docs : List TaggedDocument)
    (tagFn tagFn2 : TaggedDocument → Except String (List TaggedEntity))
    (collection : String) (ent_types : List String)
    (tagger_name tagger_version : String) :
    (∀ idv : Int,
      ((mainRun workdir_given document_ids db docs tagFn collection ent_types
          tagger_name tagger_version).runRecords.filter
        (fun row => row.document_id = idv)).length
        = if idv ∈ document_ids ∩ db then 1 else 0) ∧
    (mainRun workdir_given document_ids db docs tagFn collection ent_types
        tagger_name tagger_version).runRecords
      = (mainRun workdir_given document_ids db docs tagFn2 collection ent_types
        tagger_name tagger_version).runRecords := by
  constructor
  · intro idv
    by_cases hcard : document_ids.card = 0
    · have hempty : document_ids = ∅ := Finset.card_eq_zero.mp hcard
      simp [mainRun, hcard, hempty]
    · have hmem : idv ∈ document_ids ∩ db ↔
          idv ∈ (document_ids ∩ db).sort (fun a b => a ≤ b) :=
        (Finset.mem_sort _).symm
      have hrun : (mainRun workdir_given document_ids db docs tagFn collection
          ent_types tagger_name tagger_version).runRecords
          = add_doc_tagged_by_infos (document_ids ∩ db) collection ent_types
            tagger_name tagger_version := by
        simp only [mainRun]
        rw [if_neg hcard]
      rw [hrun]
      simp only [add_doc_tagged_by_infos]
      rw [rowFilter_count _ _ _ _ idv _ (Finset.sort_nodup _ _)]
      by_cases hin : idv ∈ document_ids ∩ db
      · rw [if_pos (hmem.mp hin), if_pos hin]
      · rw [if_neg (fun h => hin (hmem.mpr h)), if_neg hin]
  · by_cases hcard : document_ids.card = 0 <;> simp [mainRun, hcard]

/-- C8: an empty work set terminates the run immediately as a success,
before tagger initialization, with no flush call and no `DocTaggedBy` row. -/
theorem claim_C8_empty_workset_short_circuit
    (workdir_given : Bool) (document_ids db : Finset Int)
    (docs : List TaggedDocument)
    (tagFn : TaggedDocument → Except String (List TaggedEntity))
    (collection : String) (ent_types : List String)
    (tagger_name tagger_version : String)
    (h : document_ids = ∅) :
    (mainRun workdir_given document_ids db docs tagFn collection ent_types
        tagger_name tagger_version).success = true ∧
    (mainRun workdir_given document_ids db docs tagFn collection ent_types
        tagger_name tagger_version).taggerInitialized = false ∧
    (mainRun workdir_given document_ids db docs tagFn collection ent_types
        tagger_name tagger_version).flushes = [] ∧
    (mainRun workdir_given document_ids db docs tagFn collection ent_types
        tagger_name tagger_version).runRecords = [] ∧
    (mainRun workdir_given document_ids db docs tagFn collection ent_types
        tagger_name tagger_version).docsDone = 0 := by
  subst h
  simp [mainRun]

/-- Witness for C8 at a concrete empty work set. -/
theorem claim_C8_empty_workset_short_circuit_witness :
    (mainRun false ∅ {1, 2} [⟨1, true⟩] (fun _ => Except.ok []) "PubMed"
        ["Drug"] "TaggerOne" "2.1").success = true ∧
    (mainRun false ∅ {1, 2} [⟨1, true⟩] (fun _ => Except.ok []) "PubMed"
        ["Drug"] "TaggerOne" "2.1").taggerInitialized = false ∧
    (mainRun false ∅ {1, 2} [⟨1, true⟩] (fun _ => Except.ok []) "PubMed"
        ["Drug"] "TaggerOne" "2.1").flushes = [] ∧
    (mainRun false ∅ {1, 2} [⟨1, true⟩] (fun _ => Except.ok []) "PubMed"
        ["Drug"] "TaggerOne" "2.1").runRecords = [] ∧
    (mainRun false ∅ {1, 2} [⟨1, true⟩] (fun _ => Except.ok []) "PubMed"
        ["Drug"] "TaggerOne" "2.1").docsDone = 0 :=
  claim_C8_empty_workset_short_circuit false ∅ {1, 2} [⟨1, true⟩]
    (fun _ => Except.ok []) "PubMed" ["Drug"] "TaggerOne" "2.1" rfl

/-- Witness for C3 at a concrete run: document 2 is in both the work set
and storage, so it receives exactly one row; ids 1 (not stored) and 3 (not
selected) receive none. -/
theorem claim_C3_runrecords_intersection_witness :
    (((mainRun false {1, 2} {2, 3} [⟨2, true⟩] (fun _ => Except.ok [])
        "PubMed" ["Drug"] "TaggerOne" "2.1").runRecords.filter
      (fun row => row.document_id = 2)).length
      = if (2 : Int) ∈ ({1, 2} : Finset Int) ∩ {2, 3} then 1 else 0) ∧
    (((mainRun false {1, 2} {2, 3} [⟨2, true⟩] (fun _ => Except.ok [])
        "PubMed" ["Drug"] "TaggerOne" "2.1").runRecords.filter
      (fun row => row.document_id = 1)).length
      = if (1 : Int) ∈ ({1, 2} : Finset Int) ∩ {2, 3} then 1 else 0) :=
  ⟨(claim_C3_runrecords_intersection false {1, 2} {2, 3} [⟨2, true⟩]
      (fun _ => Except.ok []) (fun _ => Except.ok []) "PubMed" ["Drug"]
      "TaggerOne" "2.1").1 2,
    (claim_C3_runrecords_intersection false {1, 2} {2, 3} [⟨2, true⟩]
      (fun _ => Except.ok []) (fun _ => Except.ok []) "PubMed" ["Drug"]
      "TaggerOne" "2.1").1 1⟩

/-- C6 counterexample: with an input file given and the force-reprocess
flag set, a candidate id that is already tagged is still filtered out —
the full candidate set {1} is not selected, refuting the claim that the
force flag disables already-tagged filtering on every input path. -/
theorem claim_C6_counterexample :
    computeWorkSet true true true ({1} : Finset Int) ∅ ({1} : Finset Int) = ∅ ∧
    computeWorkSet true true true ({1} : Finset Int) ∅ ({1} : Finset Int)
      ≠ ({1} : Finset Int) := by
  constructor <;> decide

/-- C6 as amended: on the database path the work set is (all ids in the
collection) minus (already-tagged ids) unless the force-reprocess flag
selects the full set; on the input-file path the flag is ignored and the
work set is always the file's ids minus the already-tagged ids (empty if
the input file does not exist). -/
theorem claim_C6_workset_computation
    (force_tag_all in_file_exists : Bool)
    (in_ids document_ids_in_db alreadyTagged : Finset Int) :
    (computeWorkSet false force_tag_all in_file_exists in_ids
        document_ids_in_db alreadyTagged =
      if force_tag_all then document_ids_in_db
      else document_ids_in_db \ alreadyTagged) ∧
    (computeWorkSet true force_tag_all in_file_exists in_ids
        document_ids_in_db alreadyTagged =
      computeWorkSet true false in_file_exists in_ids
        document_ids_in_db alreadyTagged) ∧
    (computeWorkSet true force_tag_all true in_ids
        document_ids_in_db alreadyTagged = in_ids \ alreadyTagged) := by
  unfold computeWorkSet find_untagged_ids get_untagged_doc_ids_by_tagger
  cases force_tag_all <;> cases in_file_exists <;> simp

/-- Witness for the amended C6: a concrete input-file run where the force
flag is set and the already-tagged id 3 is still excluded. -/
theorem claim_C6_workset_computation_witness :
    computeWorkSet true true true ({1, 3} : Finset Int) ({2} : Finset Int)
      ({3} : Finset Int) = ({1, 3} : Finset Int) \ ({3} : Finset Int) :=
  (claim_C6_workset_computation true true {1, 3} {2} {3}).2.2

/-- C7: the code violates the claim that the scratch working directory is
released on every exit path — on the empty-work-set early exit
(`exit(0)` at dictpreprocess.py line 167) the temp directory created by
`tempfile.mkdtemp()` is never removed (`shutil.rmtree` runs only at lines
243-245 after finalization, and only when no `--workdir` was given). -/
theorem claim_C7_scratch_leak_on_early_exit :
    (mainRun false ∅ ({1} : Finset Int) [⟨1, true⟩] (fun _ => Except.ok [])
        "PubMed" ["Drug"] "TaggerOne" "2.1").success = true ∧
    (mainRun false ∅ ({1} : Finset Int) [⟨1, true⟩] (fun _ => Except.ok [])
        "PubMed" ["Drug"] "TaggerOne" "2.1").scratchReleased = false := by
  constructor <;> rfl

/-- C10: `tree_number_to_entity_type` returns exactly the entity types of
the prefix-table entries whose tree-number prefix starts the input, in
table order; raises `KeyError` iff no entry matches; and any tree number
starting with "E" yields at least METHOD, LAB_METHOD and DOSAGE_FORM. -/
theorem claim_C10_tree_number_classification (tn : String) :
    (∀ hits, tree_number_to_entity_type tn = Except.ok hits →
      hits = (MESH_TREE_TO_ENTITY_TYPE.filter
        (fun p => startswith tn p.1)).map Prod.snd) ∧
    ((∃ msg, tree_number_to_entity_type tn = Except.error msg) ↔
      ∀ p ∈ MESH_TREE_TO_ENTITY_TYPE, ¬ startswith tn p.1 = true) ∧
    (startswith tn "E" = true →
      ∃ hits, tree_number_to_entity_type tn = Except.ok hits ∧
        METHOD ∈ hits ∧ LAB_METHOD ∈ hits ∧ DOSAGE_FORM ∈ hits) := by
  have hfold := hits_foldl_eq_filter_map tn MESH_TREE_TO_ENTITY_TYPE []
  have heq : tree_number_to_entity_type tn =
      (if ((MESH_TREE_TO_ENTITY_TYPE.filter
          (fun p => startswith tn p.1)).map Prod.snd).isEmpty then
        Except.error ("No entity type for tree number " ++ tn ++ " found")
      else Except.ok ((MESH_TREE_TO_ENTITY_TYPE.filter
          (fun p => startswith tn p.1)).map Prod.snd)) := by
    unfold tree_number_to_entity_type
    rw [hfold]
    rfl
  refine ⟨?_, ?_, ?_⟩
  · intro hits hok
    rw [heq] at hok
    split at hok
    · exact Except.noConfusion hok
    · exact (Except.ok.inj hok).symm
  · rw [heq]
    constructor
    · intro ⟨msg, hmsg⟩
      split at hmsg
      · rename_i hempty
        rw [List.isEmpty_iff, List.map_eq_nil_iff, List.filter_eq_nil_iff]
          at hempty
        exact hempty
      · exact Except.noConfusion hmsg
    · intro hnone
      have hempty : ((MESH_TREE_TO_ENTITY_TYPE.filter
          (fun p => startswith tn p.1)).map Prod.snd).isEmpty = true := by
        rw [List.isEmpty_iff, List.map_eq_nil_iff, List.filter_eq_nil_iff]
        exact hnone
      rw [if_pos hempty]
      exact ⟨_, rfl⟩
  · intro hE
    have hmemtbl : (("E", METHOD) ∈ MESH_TREE_TO_ENTITY_TYPE) ∧
        (("E", LAB_METHOD) ∈ MESH_TREE_TO_ENTITY_TYPE) ∧
        (("E", DOSAGE_FORM) ∈ MESH_TREE_TO_ENTITY_TYPE) := by
      refine ⟨?_, ?_, ?_⟩ <;> simp [MESH_TREE_TO_ENTITY_TYPE]
    have hmem : METHOD ∈ (MESH_TREE_TO_ENTITY_TYPE.filter
        (fun p => startswith tn p.1)).map Prod.snd :=
      List.mem_map.mpr ⟨("E", METHOD),
        List.mem_filter.mpr ⟨hmemtbl.1, hE⟩, rfl⟩
    have hmem2 : LAB_METHOD ∈ (MESH_TREE_TO_ENTITY_TYPE.filter
        (fun p => startswith tn p.1)).map Prod.snd :=
      List.mem_map.mpr ⟨("E", LAB_METHOD),
        List.mem_filter.mpr ⟨hmemtbl.2.1, hE⟩, rfl⟩
    have hmem3 : DOSAGE_FORM ∈ (MESH_TREE_TO_ENTITY_TYPE.filter
        (fun p => startswith tn p.1)).map Prod.snd :=
      List.mem_map.mpr ⟨("E", DOSAGE_FORM),
        List.mem_filter.mpr ⟨hmemtbl.2.2, hE⟩, rfl⟩
    have hnonempty : ¬ ((MESH_TREE_TO_ENTITY_TYPE.filter
        (fun p => startswith tn p.1)).map Prod.snd).isEmpty = true := by
      rw [List.isEmpty_iff]
      intro hnil
      rw [hnil] at hmem
      exact List.not_mem_nil _ hmem
    refine ⟨_, ?_, hmem, hmem2, hmem3⟩
    rw [heq, if_neg hnonempty]

/-- Witness for C10 at the tree number "E05.200": a method-area MeSH code. -/
theorem claim_C10_tree_number_classification_witness :
    startswith "E05.200" "E" = true ∧
    (∃ hits, tree_number_to_entity_type "E05.200" = Except.ok hits ∧
      METHOD ∈ hits ∧ LAB_METHOD ∈ hits ∧ DOSAGE_FORM ∈ hits) :=
  ⟨by decide, (claim_C10_tree_number_classification "E05.200").2.2 (by decide)⟩

end Narrant
